import Mathlib

/-
Shallow embedding of the WeatherApp-Flask backend (src/app.py) and proofs
about its data-normalization and risk-scoring pipeline.

Numeric values are modelled as rationals; values that may be JSON null or
absent are modelled as Option values.  The Python builtin round uses
round-half-to-even, modelled exactly by pyRound below.
-/

namespace WeatherApp

/-- Model of the Python builtin round to an integer: round half to even. -/
def pyRound (x : ℚ) : ℤ :=
  if x - ⌊x⌋ < 1/2 then ⌊x⌋
  else if (1/2 : ℚ) < x - ⌊x⌋ then ⌊x⌋ + 1
  else if ⌊x⌋ % 2 = 0 then ⌊x⌋ else ⌊x⌋ + 1

/-- Model of the Python round with one decimal digit. -/
def pyRound1 (x : ℚ) : ℚ :=
  (pyRound (x * 10) : ℚ) / 10

/-- Model of the Python round with two decimal digits. -/
def pyRound2 (x : ℚ) : ℚ :=
  (pyRound (x * 100) : ℚ) / 100

theorem abs_pyRound_sub_le (x : ℚ) : |(pyRound x : ℚ) - x| ≤ 1/2 := by
  unfold pyRound
  have h0 : ((⌊x⌋ : ℤ) : ℚ) ≤ x := Int.floor_le x
  have h1 : x < (⌊x⌋ : ℤ) + 1 := Int.lt_floor_add_one x
  split_ifs with ha hb hc <;> rw [abs_le] <;> constructor <;> push_cast <;> linarith

theorem abs_pyRound1_sub_le (x : ℚ) : |pyRound1 x - x| ≤ 1/20 := by
  have h := abs_pyRound_sub_le (x * 10)
  have hx : pyRound1 x = (pyRound (x * 10) : ℚ) / 10 := rfl
  rw [abs_le] at h ⊢
  constructor <;> rw [hx] <;> linarith [h.1, h.2]

theorem pyRound_intCast (k : ℤ) : pyRound (k : ℚ) = k := by
  unfold pyRound
  simp [Int.floor_intCast]

theorem pyRound1_idem (x : ℚ) : pyRound1 (pyRound1 x) = pyRound1 x := by
  unfold pyRound1
  rw [div_mul_cancel₀ _ (by norm_num : (10 : ℚ) ≠ 0), pyRound_intCast]

/-! ## Missing-value normalizer (src/app.py lines 13-17) -/

/-- The numeric missing-data sentinels from MISSING (None is the Option none case). -/
def MISSING_NUM : List ℚ := [-999, -9999, -99]

/-- v in MISSING, where MISSING is the set of sentinels together with None. -/
def isMissing : Option ℚ → Bool
  | none => true
  | some x => decide (x ∈ MISSING_NUM)

/-- mv(v, default): return default if v is missing, else v unchanged. -/
def mv (v : Option ℚ) (default : ℚ) : ℚ :=
  if isMissing v then default else v.getD default

/-- Claim C1: mv returns the fallback exactly on the sentinels -999, -9999,
-99 and null/absent, and returns the value unchanged for every other value,
including 0 and negative non-sentinel numbers. -/
theorem mv_defaultOr (v : Option ℚ) (d : ℚ) :
    ((v = none ∨ v = some (-999) ∨ v = some (-9999) ∨ v = some (-99)) → mv v d = d) ∧
    (∀ x : ℚ, v = some x → x ≠ -999 → x ≠ -9999 → x ≠ -99 → mv v d = x) := by
  constructor
  · rintro (rfl | rfl | rfl | rfl) <;> simp [mv, isMissing, MISSING_NUM]
  · rintro x rfl hx1 hx2 hx3
    simp [mv, isMissing, MISSING_NUM, hx1, hx2, hx3]

/-- Witness for C1 at concrete inputs: sentinels map to the fallback, while
0 and a negative non-sentinel value pass through unchanged. -/
theorem mv_defaultOr_witness :
    mv (some (-999)) 7 = 7 ∧ mv none 7 = 7 ∧ mv (some 0) 7 = 0 ∧ mv (some (-5)) 7 = -5 :=
  ⟨(mv_defaultOr (some (-999)) 7).1 (Or.inr (Or.inl rfl)),
   (mv_defaultOr none 7).1 (Or.inl rfl),
   (mv_defaultOr (some 0) 7).2 0 rfl (by norm_num) (by norm_num) (by norm_num),
   (mv_defaultOr (some (-5)) 7).2 (-5) rfl (by norm_num) (by norm_num) (by norm_num)⟩

/-! ## Unit conversion and the Response Shaper (src/app.py lines 46-80) -/

/-- Model of the Python str.lower() (ASCII case folding). -/
def pyLower (s : String) : String :=
  ⟨s.data.map Char.toLower⟩

/-- convert_temp(temp_f, to_celsius): None passes through; otherwise either
round((temp_f - 32) * 5/9, 1) or round(temp_f, 1). -/
def convert_temp (temp_f : Option ℚ) (to_celsius : Bool) : Option ℚ :=
  match temp_f with
  | none => none
  | some t => if to_celsius then some (pyRound1 ((t - 32) * 5/9)) else some (pyRound1 t)

/-- The current-weather object fields touched by format_weather_response. -/
structure CurrentObj where
  temp : Option ℚ
  feelsLike : Option ℚ
  dewPoint : Option ℚ
  high : Option ℚ
  low : Option ℚ
deriving DecidableEq

/-- An hourly entry, with the fields touched by format_weather_response. -/
structure HourlyObj where
  temp : Option ℚ
  feelsLike : Option ℚ
  dewPoint : Option ℚ
deriving DecidableEq

/-- A daily forecast entry, with the fields touched by format_weather_response. -/
structure ForecastObj where
  high : Option ℚ
  low : Option ℚ
deriving DecidableEq

/-- A response object: each substructure may be absent; a field that is
absent or null is the none case and is left untouched by the shaper. -/
structure WeatherResponse where
  current : Option CurrentObj
  hourly : Option (List HourlyObj)
  forecast : Option (List ForecastObj)
  unit : Option String
deriving DecidableEq

def convertCurrent (c : CurrentObj) (is_celsius : Bool) : CurrentObj :=
  { temp := convert_temp c.temp is_celsius
    feelsLike := convert_temp c.feelsLike is_celsius
    dewPoint := convert_temp c.dewPoint is_celsius
    high := convert_temp c.high is_celsius
    low := convert_temp c.low is_celsius }

def convertHourly (h : HourlyObj) (is_celsius : Bool) : HourlyObj :=
  { temp := convert_temp h.temp is_celsius
    feelsLike := convert_temp h.feelsLike is_celsius
    dewPoint := convert_temp h.dewPoint is_celsius }

def convertForecast (d : ForecastObj) (is_celsius : Bool) : ForecastObj :=
  { high := convert_temp d.high is_celsius
    low := convert_temp d.low is_celsius }

/-- format_weather_response(data, unit): converts every recognized
temperature field of the current/hourly/forecast substructures and sets
the unit symbol. -/
def format_weather_response (data : WeatherResponse) (unit : String) : WeatherResponse :=
  { current := data.current.map (fun c => convertCurrent c (pyLower unit == "celsius"))
    hourly := data.hourly.map (fun l => l.map (fun h => convertHourly h (pyLower unit == "celsius")))
    forecast := data.forecast.map (fun l => l.map (fun d => convertForecast d (pyLower unit == "celsius")))
    unit := some (if pyLower unit == "celsius" then "°C" else "°F") }

/-- A response holding one already-Fahrenheit current temperature of 100. -/
def sampleResp : WeatherResponse :=
  { current := some { temp := some 100, feelsLike := none, dewPoint := none, high := none, low := none }
    hourly := none
    forecast := none
    unit := none }

/-- Counterexample to C2: applying the shaper twice with target celsius is
not the same as applying it once — the second application re-converts the
already-converted value 37.8 to 3.2. -/
theorem format_weather_response_not_idem_celsius :
    format_weather_response (format_weather_response sampleResp ("celsius")) ("celsius") ≠
      format_weather_response sampleResp ("celsius") := by
  have hc : (pyLower ("celsius") == "celsius") = true := by decide
  intro hcontra
  have h := congrArg (fun w : WeatherResponse => w.current.map (fun c => c.temp)) hcontra
  simp [format_weather_response, sampleResp, convertCurrent, convert_temp, hc] at h
  norm_num [pyRound1, pyRound] at h

theorem convert_temp_false_idem (t : Option ℚ) :
    convert_temp (convert_temp t false) false = convert_temp t false := by
  cases t with
  | none => rfl
  | some x => simp [convert_temp, pyRound1_idem]

theorem convertCurrent_false_idem (c : CurrentObj) :
    convertCurrent (convertCurrent c false) false = convertCurrent c false := by
  simp [convertCurrent, convert_temp_false_idem]

theorem convertHourly_false_idem (h : HourlyObj) :
    convertHourly (convertHourly h false) false = convertHourly h false := by
  simp [convertHourly, convert_temp_false_idem]

theorem convertForecast_false_idem (d : ForecastObj) :
    convertForecast (convertForecast d false) false = convertForecast d false := by
  simp [convertForecast, convert_temp_false_idem]

/-- Claim C2 (amended): the Response Shaper is idempotent for target unit
fahrenheit — a second application only re-rounds already-rounded values and
changes nothing; for target celsius it is not idempotent (see the
counterexample), because the conversion always treats its input as
Fahrenheit. -/
theorem format_weather_response_idem_fahrenheit (data : WeatherResponse) :
    format_weather_response (format_weather_response data ("fahrenheit")) ("fahrenheit") =
      format_weather_response data ("fahrenheit") := by
  have hc : (pyLower ("fahrenheit") == "celsius") = false := by decide
  simp [format_weather_response, hc, Option.map_map, List.map_map, Function.comp_def,
    convertCurrent_false_idem, convertHourly_false_idem, convertForecast_false_idem]

/-! ## Temperature round-trip (src/app.py line 157 and lines 46-49) -/

/-- The display conversion used by get_power_hourly: round((c * 9/5) + 32). -/
def display_temp_f (c : ℚ) : ℤ :=
  pyRound (c * 9/5 + 32)

/-- Claim C9: converting a Celsius value to a display Fahrenheit integer and
back through the shaper conversion recovers the original within 1 degree C. -/
theorem temp_roundtrip (c r : ℚ)
    (h : convert_temp (some ((display_temp_f c : ℤ) : ℚ)) true = some r) :
    |r - c| ≤ 1 := by
  simp only [convert_temp, if_true, Option.some.injEq, display_temp_f] at h
  subst h
  have h1 := abs_pyRound_sub_le (c * 9/5 + 32)
  have h2 := abs_pyRound1_sub_le ((((pyRound (c * 9/5 + 32) : ℤ) : ℚ) - 32) * 5/9)
  rw [abs_le] at h1 h2 ⊢
  constructor <;> linarith [h2.1, h2.2, h1.1, h1.2]

/-- Witness for C9 at c = 20: the round trip gives exactly 20. -/
theorem temp_roundtrip_witness :
    convert_temp (some ((display_temp_f 20 : ℤ) : ℚ)) true = some 20 ∧ |(20 : ℚ) - 20| ≤ 1 :=
  ⟨by norm_num [convert_temp, display_temp_f, pyRound1, pyRound],
   temp_roundtrip 20 20 (by norm_num [convert_temp, display_temp_f, pyRound1, pyRound])⟩

/-! ## Hourly Series Flattener (src/app.py lines 83-99) -/

/-- A JSON value in a provider parameter series: either a scalar
measurement (possibly null) or a day-keyed array of hourly measurements. -/
inductive PVal where
  | scalar : Option ℚ → PVal
  | arr : List (Option ℚ) → PVal
deriving DecidableEq

/-- The synthetic hour suffix produced by the format string, two-digit
zero-padded for hours 0-9. -/
def hourSuffix (i : ℕ) : String :=
  if i < 10 then "0" ++ toString i else toString i

/-- Expansion of one day-keyed array into hour-keyed scalar entries. -/
def expandDay (dk : String) (vals : List (Option ℚ)) : List (String × PVal) :=
  vals.enum.map (fun p => (dk ++ hourSuffix p.1, PVal.scalar p.2))

/-- One iteration of the expansion loop: a list-valued entry is expanded,
any other entry contributes nothing. -/
def expandEntry (kv : String × PVal) : List (String × PVal) :=
  match kv.2 with
  | PVal.arr vals => expandDay kv.1 vals
  | PVal.scalar _ => []

/-- The guard isinstance(vals, list) of the expansion loop. -/
def isArrVal (kv : String × PVal) : Bool :=
  match kv.2 with
  | PVal.arr _ => true
  | PVal.scalar _ => false

/-- _flatten_hourly_series: empty input returns empty; if the first value
is a list, every list-valued entry is expanded into hour-suffixed keys;
otherwise the input is returned unchanged. -/
def _flatten_hourly_series : List (String × PVal) → List (String × PVal)
  | [] => []
  | (k, PVal.arr l) :: rest => ((k, PVal.arr l) :: rest).flatMap expandEntry
  | (k, PVal.scalar q) :: rest => (k, PVal.scalar q) :: rest

theorem hourSuffix_length : ∀ i, i < 24 → (hourSuffix i).length = 2 := by decide

theorem hourSuffix_inj : ∀ i, i < 24 → ∀ j, j < 24 → hourSuffix i = hourSuffix j → i = j := by
  decide

theorem string_append_inj (a b s t : String) (h : a ++ s = b ++ t) (hl : s.length = t.length) :
    a = b ∧ s = t := by
  have hd := congrArg String.data h
  rw [String.data_append, String.data_append] at hd
  have hl2 : s.data.length = t.data.length := hl
  obtain ⟨h1, h2⟩ := List.append_inj' hd hl2
  exact ⟨String.ext h1, String.ext h2⟩

theorem expandDay_keys (dk : String) (vals : List (Option ℚ)) :
    (expandDay dk vals).map Prod.fst = (List.range vals.length).map (fun i => dk ++ hourSuffix i) := by
  simp only [expandDay, List.map_map]
  rw [← List.enum_map_fst vals, List.map_map]
  rfl

theorem flatMap_expand_length (d : List (String × PVal))
    (hv : ∀ kv ∈ d, ∃ l, kv.2 = PVal.arr l ∧ l.length = 24) :
    (d.flatMap expandEntry).length = 24 * d.length := by
  induction d with
  | nil => rfl
  | cons kv rest ih =>
    obtain ⟨l, hl, hlen⟩ := hv kv (List.mem_cons_self _ _)
    obtain ⟨k, v⟩ := kv
    simp only at hl
    subst hl
    rw [List.flatMap_cons, List.length_append, ih (fun x hx => hv x (List.mem_cons_of_mem _ hx))]
    have he : (expandEntry (k, PVal.arr l)).length = 24 := by
      simp [expandEntry, expandDay, hlen]
    rw [he, List.length_cons]
    ring

theorem flatMap_expand_mem (d : List (String × PVal)) (kv : String × PVal)
    (h : kv ∈ d.flatMap expandEntry) :
    ∃ dk vals, (dk, PVal.arr vals) ∈ d ∧ ∃ i, i < vals.length ∧ kv.1 = dk ++ hourSuffix i := by
  rw [List.mem_flatMap] at h
  obtain ⟨⟨k, v⟩, ha, hkv⟩ := h
  cases v with
  | scalar q => simp [expandEntry] at hkv
  | arr vals =>
    refine ⟨k, vals, ha, ?_⟩
    simp only [expandEntry, expandDay, List.mem_map] at hkv
    obtain ⟨⟨i, x⟩, hp, hkv2⟩ := hkv
    have hi := (List.mem_enum hp).1
    exact ⟨i, hi, by rw [← hkv2]⟩

theorem flatMap_expand_keys_nodup (d : List (String × PVal))
    (hv : ∀ kv ∈ d, ∃ l, kv.2 = PVal.arr l ∧ l.length = 24)
    (hnd : (d.map Prod.fst).Nodup) :
    ((d.flatMap expandEntry).map Prod.fst).Nodup := by
  rw [List.map_flatMap, List.nodup_flatMap]
  constructor
  · intro kv hkv
    obtain ⟨l, hl, hlen⟩ := hv kv hkv
    obtain ⟨k, v⟩ := kv
    simp only at hl
    subst hl
    rw [show expandEntry (k, PVal.arr l) = expandDay k l from rfl, expandDay_keys, hlen]
    refine List.Nodup.map_on ?_ (List.nodup_range 24)
    intro i hi j hj hf
    rw [List.mem_range] at hi hj
    have hs := string_append_inj _ _ _ _ hf
      (by rw [hourSuffix_length i hi, hourSuffix_length j hj])
    exact hourSuffix_inj i hi j hj hs.2
  · have hnd2 : d.Pairwise (fun a b => a.1 ≠ b.1) := by
      rw [List.Nodup, List.pairwise_map] at hnd
      exact hnd
    refine List.Pairwise.imp_of_mem ?_ hnd2
    intro a b ha hb hab
    intro x hxa hxb
    obtain ⟨la, hla, hlena⟩ := hv a ha
    obtain ⟨lb, hlb, hlenb⟩ := hv b hb
    obtain ⟨ka, va⟩ := a
    obtain ⟨kb, vb⟩ := b
    simp only at hla hlb hab
    subst hla
    subst hlb
    have hxa2 : x ∈ List.map Prod.fst (expandEntry (ka, PVal.arr la)) := hxa
    have hxb2 : x ∈ List.map Prod.fst (expandEntry (kb, PVal.arr lb)) := hxb
    rw [show expandEntry (ka, PVal.arr la) = expandDay ka la from rfl, expandDay_keys, hlena] at hxa2
    rw [show expandEntry (kb, PVal.arr lb) = expandDay kb lb from rfl, expandDay_keys, hlenb] at hxb2
    rw [List.mem_map] at hxa2 hxb2
    obtain ⟨i, hi, hxi⟩ := hxa2
    obtain ⟨j, hj, hxj⟩ := hxb2
    rw [List.mem_range] at hi hj
    have heq : ka ++ hourSuffix i = kb ++ hourSuffix j := by rw [hxi, hxj]
    have hs := string_append_inj _ _ _ _ heq
      (by rw [hourSuffix_length i hi, hourSuffix_length j hj])
    exact hab hs.1

/-- Claim C3: on an input whose values are all 24-element sequences the
flattener returns exactly 24 times as many entries as input keys, each
keyed by a day key followed by a zero-padded two-digit hour below 24, with
pairwise distinct keys; on an input of plain scalars it returns the input
unchanged; and on the empty input it returns the empty mapping. -/
theorem flatten_hourly_spec :
    (∀ d : List (String × PVal),
        (∀ kv ∈ d, ∃ l, kv.2 = PVal.arr l ∧ l.length = 24) →
        (d.map Prod.fst).Nodup →
        ((_flatten_hourly_series d).length = 24 * d.length ∧
         (∀ kv ∈ _flatten_hourly_series d,
            ∃ dk vals, (dk, PVal.arr vals) ∈ d ∧ ∃ i, i < 24 ∧ kv.1 = dk ++ hourSuffix i) ∧
         ((_flatten_hourly_series d).map Prod.fst).Nodup)) ∧
    (∀ d : List (String × PVal),
        (∀ kv ∈ d, ∃ q, kv.2 = PVal.scalar q) → _flatten_hourly_series d = d) ∧
    _flatten_hourly_series ([] : List (String × PVal)) = [] := by
  refine ⟨?_, ?_, rfl⟩
  · intro d hv hnd
    cases d with
    | nil => exact ⟨rfl, by intro kv hkv; simp [_flatten_hourly_series] at hkv, List.nodup_nil⟩
    | cons head rest =>
      obtain ⟨k₀, v₀⟩ := head
      obtain ⟨l₀, hv₀, _⟩ := hv (k₀, v₀) (List.mem_cons_self _ _)
      simp only at hv₀
      subst hv₀
      have hflat : _flatten_hourly_series ((k₀, PVal.arr l₀) :: rest) =
          ((k₀, PVal.arr l₀) :: rest).flatMap expandEntry := rfl
      rw [hflat]
      refine ⟨flatMap_expand_length _ hv, ?_, flatMap_expand_keys_nodup _ hv hnd⟩
      intro kv hkv
      obtain ⟨dk, vals, hmem, i, hi, hkey⟩ := flatMap_expand_mem _ kv hkv
      obtain ⟨l, hl, hlen⟩ := hv (dk, PVal.arr vals) hmem
      simp only at hl
      have : vals = l := by injection hl
      subst this
      exact ⟨dk, vals, hmem, i, by rw [← hlen]; exact hi, hkey⟩
  · intro d h
    cases d with
    | nil => rfl
    | cons head rest =>
      obtain ⟨k, v⟩ := head
      obtain ⟨q, hq⟩ := h (k, v) (List.mem_cons_self _ _)
      simp only at hq
      subst hq
      rfl

/-- Witness for C3 at a concrete one-key 24-hour input and a concrete
scalar input. -/
theorem flatten_hourly_spec_witness :
    (_flatten_hourly_series [("D", PVal.arr (List.replicate 24 none))]).length = 24 * 1 ∧
    _flatten_hourly_series [("K", PVal.scalar (some 3))] = [("K", PVal.scalar (some 3))] :=
  ⟨(flatten_hourly_spec.1 [("D", PVal.arr (List.replicate 24 none))]
      (by
        intro kv hkv
        rw [List.mem_singleton] at hkv
        subst hkv
        exact ⟨List.replicate 24 none, rfl, by simp⟩)
      (by simp)).1,
   flatten_hourly_spec.2.1 [("K", PVal.scalar (some 3))]
     (by
       intro kv hkv
       rw [List.mem_singleton] at hkv
       subst hkv
       exact ⟨some 3, rfl⟩)⟩

theorem flatMap_expand_filter (d : List (String × PVal)) :
    d.flatMap expandEntry = (d.filter isArrVal).flatMap expandEntry := by
  induction d with
  | nil => rfl
  | cons kv rest ih =>
    obtain ⟨k, v⟩ := kv
    cases v with
    | scalar q => simpa [List.filter_cons, expandEntry, isArrVal] using ih
    | arr l => simp [List.filter_cons, expandEntry, isArrVal, ih]

/-- Claim C10: when the first value of a non-empty input is a sequence, the
flattener output comes only from the sequence-valued entries — scalar-valued
entries are silently dropped, neither expanded nor passed through; in a
concrete mixed input the scalar key X appears nowhere in the output. -/
theorem flatten_mixed_drops_scalars :
    (∀ (k₀ : String) (l₀ : List (Option ℚ)) (rest : List (String × PVal)),
        _flatten_hourly_series ((k₀, PVal.arr l₀) :: rest) =
          _flatten_hourly_series ((k₀, PVal.arr l₀) :: rest.filter isArrVal)) ∧
    ((_flatten_hourly_series
        [("20240101", PVal.arr (List.replicate 24 (some 0))), ("X", PVal.scalar (some 5))]).all
      (fun kv => kv.1 != "X")) = true := by
  constructor
  · intro k₀ l₀ rest
    have h1 : _flatten_hourly_series ((k₀, PVal.arr l₀) :: rest) =
        ((k₀, PVal.arr l₀) :: rest).flatMap expandEntry := rfl
    have h2 : _flatten_hourly_series ((k₀, PVal.arr l₀) :: rest.filter isArrVal) =
        ((k₀, PVal.arr l₀) :: rest.filter isArrVal).flatMap expandEntry := rfl
    rw [h1, h2, List.flatMap_cons, List.flatMap_cons, flatMap_expand_filter rest]
  · decide

/-! ## Condition Classifier (src/app.py lines 185-197) -/

/-- get_weather_condition(temp_c, humidity, precip_amount, is_hourly): the
precipitation thresholds depend on granularity; the humidity fall-through
is shared by both branches; temp_c is accepted but unused. -/
def get_weather_condition (temp_c humidity precip_amount : ℚ) (is_hourly : Bool) :
    String × String :=
  if is_hourly then
    if precip_amount ≥ 2 then ("Rainy", "🌧️")
    else if precip_amount ≥ 0.2 then ("Light Rain", "🌦️")
    else if humidity > 80 then ("Cloudy", "☁️")
    else if humidity > 60 then ("Partly Cloudy", "⛅")
    else ("Clear", "☀️")
  else
    if precip_amount ≥ 10 then ("Rainy", "🌧️")
    else if precip_amount ≥ 1 then ("Light Rain", "🌦️")
    else if humidity > 80 then ("Cloudy", "☁️")
    else if humidity > 60 then ("Partly Cloudy", "⛅")
    else ("Clear", "☀️")

/-- Claim C4: the classifier result is precipitation-first (thresholds 2 and
0.2 hourly, 10 and 1 daily), falls through to the humidity bands above 80
and above 60, and never depends on the temperature argument. -/
theorem get_weather_condition_spec (t t' h p : ℚ) (b : Bool) :
    get_weather_condition t h p b = get_weather_condition t' h p b ∧
    (get_weather_condition t h p b = ("Rainy", "🌧️") ↔
      (b = true ∧ 2 ≤ p) ∨ (b = false ∧ 10 ≤ p)) ∧
    (get_weather_condition t h p b = ("Light Rain", "🌦️") ↔
      (b = true ∧ (0.2 : ℚ) ≤ p ∧ p < 2) ∨ (b = false ∧ 1 ≤ p ∧ p < 10)) ∧
    (get_weather_condition t h p b = ("Cloudy", "☁️") ↔
      80 < h ∧ ((b = true ∧ p < (0.2 : ℚ)) ∨ (b = false ∧ p < 1))) ∧
    (get_weather_condition t h p b = ("Partly Cloudy", "⛅") ↔
      60 < h ∧ h ≤ 80 ∧ ((b = true ∧ p < (0.2 : ℚ)) ∨ (b = false ∧ p < 1))) ∧
    (get_weather_condition t h p b = ("Clear", "☀️") ↔
      h ≤ 60 ∧ ((b = true ∧ p < (0.2 : ℚ)) ∨ (b = false ∧ p < 1))) := by
  refine ⟨rfl, ?_, ?_, ?_, ?_, ?_⟩ <;>
    cases b <;>
      simp only [get_weather_condition, if_true, if_false, Bool.true_eq_false,
        Bool.false_eq_true, false_and, and_false, or_false, false_or, true_and, and_true] <;>
      split_ifs <;>
      simp_all [not_le, not_lt, Prod.ext_iff] <;>
      intros <;>
      linarith

/-! ## Event Risk Scorer (src/app.py lines 330-481) -/

/-- One hourly forecast sample selected into the event window. -/
structure WindowEntry where
  time : String
  temp_c : Option ℚ
  precip_mm : ℚ
  pop : Option ℚ
  wind_mph : ℚ
  cloud : Option ℚ
  uv : Option ℚ
deriving DecidableEq

/-- The hourly arrays of the forecast-provider response. -/
structure ForecastHourly where
  time : List String
  temperature_2m : List (Option ℚ)
  precipitation : List ℚ
  precipitation_probability : List (Option ℚ)
  windspeed_10m : List ℚ
  cloudcover : List (Option ℚ)
  uv_index : List (Option ℚ)
deriving DecidableEq

/-- in_window(t): start <= t <= end, compared lexicographically as strings. -/
def in_window (start_iso end_iso t : String) : Bool :=
  decide (start_iso ≤ t) && decide (t ≤ end_iso)

/-- The window-selection loop: each in-window index is turned into an entry,
out-of-range array reads defaulting as in the source. -/
def buildWindow (h : ForecastHourly) (start_iso end_iso : String) : List WindowEntry :=
  h.time.enum.filterMap (fun p =>
    if in_window start_iso end_iso p.2 then
      some { time := p.2
             temp_c := (h.temperature_2m[p.1]?).getD none
             precip_mm := (h.precipitation[p.1]?).getD 0
             pop := (h.precipitation_probability[p.1]?).getD none
             wind_mph := pyRound1 (((h.windspeed_10m[p.1]?).getD 0) * 0.621371)
             cloud := (h.cloudcover[p.1]?).getD none
             uv := (h.uv_index[p.1]?).getD none }
    else none)

/-- max(..., default 0) over the wind of the window (the source guards with
the window being non-empty, defaulting to 0). -/
def max_wind (w : List WindowEntry) : ℚ :=
  ((w.map (fun x => x.wind_mph)).max?).getD 0

def max_precip (w : List WindowEntry) : ℚ :=
  ((w.map (fun x => x.precip_mm)).max?).getD 0

/-- max over the set pops, default None when every sample is unset. -/
def max_pop (w : List WindowEntry) : Option ℚ :=
  (w.filterMap (fun x => x.pop)).max?

/-- max over the set uv values, default 0 when every sample is unset. -/
def max_uvi (w : List WindowEntry) : ℚ :=
  ((w.filterMap (fun x => x.uv)).max?).getD 0

/-- sum(temps)/len(temps) if temps else None. -/
def avg_temp_c (w : List WindowEntry) : Option ℚ :=
  if (w.filterMap (fun x => x.temp_c)).isEmpty then none
  else some ((w.filterMap (fun x => x.temp_c)).sum / (w.filterMap (fun x => x.temp_c)).length)

/-- max_pop is not None and max_pop >= 60. -/
def popHigh (mp : Option ℚ) : Bool :=
  match mp with
  | none => false
  | some p => decide (60 ≤ p)

/-- max_pop is not None and 30 <= max_pop < 60. -/
def popModerate (mp : Option ℚ) : Bool :=
  match mp with
  | none => false
  | some p => decide (30 ≤ p ∧ p < 60)

def precip_risk_of (mp : Option ℚ) (mprecip : ℚ) : String :=
  if popHigh mp || decide (mprecip ≥ 2) then "high"
  else if popModerate mp || decide ((0.2 : ℚ) ≤ mprecip ∧ mprecip < 2) then "moderate"
  else "low"

def wind_risk_of (mw : ℚ) : String :=
  if mw ≥ 30 then "high" else if mw ≥ 15 then "moderate" else "low"

/-- The comfort band chosen by event type (lower-cased). -/
def comfort_range (event_type : String) : ℚ × ℚ :=
  if pyLower event_type ∈ ["wedding", "outdoor gathering", "concert", "festival", "parade", "picnic"] then
    (12, 30)
  else if pyLower event_type ∈ ["sports event", "hiking trip"] then (8, 32)
  else (10, 30)

def temp_risk_of (avg : Option ℚ) (cmin cmax : ℚ) : String :=
  match avg with
  | none => "low"
  | some a =>
    if a < cmin - 2 ∨ a > cmax + 2 then "high"
    else if a < cmin ∨ a > cmax then "moderate"
    else "low"

def uv_risk_of (mu : ℚ) : String :=
  if mu < 6 then "low" else if mu < 8 then "moderate" else "high"

def favorable_of (pr wr tr : String) : Bool :=
  decide (pr = "low") && decide (wr = "low") && decide (tr ≠ "high")

def suggestions_of (pr wr tr ur : String) : List String :=
  (if pr = "high" then
     ["High rain risk: arrange shelter/tents", "Consider shifting time to a drier hour"]
   else if pr = "moderate" then ["Showers possible: bring umbrellas/ponchos"] else []) ++
  (if wr = "high" then ["Strong winds: secure structures, avoid lightweight canopies"]
   else if wr = "moderate" then ["Breezy: secure signage/balloons"] else []) ++
  (if tr ≠ "low" then ["Adjust dress code and hydration plan"] else []) ++
  (if ur ≠ "low" then ["Provide sunscreen and shaded areas (UV elevated)"] else [])

/-- to_unit_c: round to one decimal (None passes through). -/
def to_unit_c (v : Option ℚ) : Option ℚ :=
  v.map pyRound1

/-- to_unit_f: convert to Fahrenheit, round to one decimal (None passes). -/
def to_unit_f (v : Option ℚ) : Option ℚ :=
  v.map (fun c => pyRound1 (c * 9/5 + 32))

/-- One entry of the hourly list echoed back in the advice response. -/
structure WindowOutEntry where
  time : String
  temp : Option ℚ
  precip_mm : ℚ
  pop : Option ℚ
  wind_mph : ℚ
  cloud : Option ℚ
  uv : Option ℚ
deriving DecidableEq

structure Risks where
  precip : String
  wind : String
  temperature : String
  uv : String
deriving DecidableEq

/-- The successful advice payload (the fields of the returned dict that
carry the computation results). -/
structure AdviceBody where
  favorable : Bool
  summary : String
  risks : Risks
  max_precip_mm : ℚ
  max_pop_percent : Option ℚ
  max_wind_mph : ℚ
  avg_temp : Option ℚ
  unit : String
  hourly : List WindowOutEntry
  suggestions : List String
deriving DecidableEq

/-- The risk-scoring and response assembly on a non-empty window
(src/app.py lines 376-478). -/
def mkAdviceBody (window : List WindowEntry) (unit event_type : String) : AdviceBody :=
  let pr := precip_risk_of (max_pop window) (max_precip window)
  let wr := wind_risk_of (max_wind window)
  let tr := temp_risk_of (avg_temp_c window) (comfort_range event_type).1 (comfort_range event_type).2
  let ur := uv_risk_of (max_uvi window)
  let fav := favorable_of pr wr tr
  let is_c := pyLower unit == "celsius"
  { favorable := fav
    summary := if fav then "Favorable" else "Not favorable"
    risks := { precip := pr, wind := wr, temperature := tr, uv := ur }
    max_precip_mm := pyRound2 (max_precip window)
    max_pop_percent := max_pop window
    max_wind_mph := max_wind window
    avg_temp := if is_c then to_unit_c (avg_temp_c window) else to_unit_f (avg_temp_c window)
    unit := if is_c then "°C" else "°F"
    hourly := window.map (fun x =>
      { time := x.time
        temp := if is_c then to_unit_c x.temp_c else to_unit_f x.temp_c
        precip_mm := pyRound2 x.precip_mm
        pop := x.pop
        wind_mph := x.wind_mph
        cloud := x.cloud
        uv := x.uv })
    suggestions := suggestions_of pr wr tr ur }

/-- The three possible route-level outcomes of get_event_advice. -/
inductive AdviceResp where
  | noData : AdviceResp
  | body : AdviceBody → AdviceResp
  | failed : AdviceResp
deriving DecidableEq

/-- get_event_advice: a transport or parse failure of the upstream fetch is
the except-branch (500); otherwise an empty window yields the distinguished
no-data result with status 200, and a non-empty window is scored (200). -/
def get_event_advice (fetch : Except Unit ForecastHourly)
    (start_iso end_iso unit event_type : String) : AdviceResp × ℕ :=
  match fetch with
  | Except.error _ => (AdviceResp.failed, 500)
  | Except.ok h =>
    if (buildWindow h start_iso end_iso).isEmpty then (AdviceResp.noData, 200)
    else (AdviceResp.body (mkAdviceBody (buildWindow h start_iso end_iso) unit event_type), 200)

theorem popHigh_iff (mp : Option ℚ) : popHigh mp = true ↔ ∃ p, mp = some p ∧ 60 ≤ p := by
  cases mp <;> simp [popHigh]

theorem popModerate_iff (mp : Option ℚ) :
    popModerate mp = true ↔ ∃ p, mp = some p ∧ 30 ≤ p ∧ p < 60 := by
  cases mp <;> simp [popModerate]

theorem precip_risk_high_iff (mp : Option ℚ) (m : ℚ) :
    precip_risk_of mp m = "high" ↔ (∃ p, mp = some p ∧ 60 ≤ p) ∨ 2 ≤ m := by
  unfold precip_risk_of
  split_ifs with h1 h2 <;>
    simp_all [popHigh_iff, popModerate_iff, Bool.or_eq_true, decide_eq_true_eq]

theorem precip_risk_moderate_iff (mp : Option ℚ) (m : ℚ) :
    precip_risk_of mp m = "moderate" ↔
      ¬((∃ p, mp = some p ∧ 60 ≤ p) ∨ 2 ≤ m) ∧
      ((∃ p, mp = some p ∧ 30 ≤ p ∧ p < 60) ∨ ((0.2 : ℚ) ≤ m ∧ m < 2)) := by
  unfold precip_risk_of
  split_ifs with h1 h2 <;>
    simp_all [popHigh_iff, popModerate_iff, Bool.or_eq_true, decide_eq_true_eq]

theorem precip_risk_low_iff (mp : Option ℚ) (m : ℚ) :
    precip_risk_of mp m = "low" ↔
      ¬((∃ p, mp = some p ∧ 60 ≤ p) ∨ 2 ≤ m) ∧
      ¬((∃ p, mp = some p ∧ 30 ≤ p ∧ p < 60) ∨ ((0.2 : ℚ) ≤ m ∧ m < 2)) := by
  unfold precip_risk_of
  split_ifs with h1 h2 <;>
    simp_all [popHigh_iff, popModerate_iff, Bool.or_eq_true, decide_eq_true_eq]

theorem wind_risk_high_iff (mw : ℚ) : wind_risk_of mw = "high" ↔ 30 ≤ mw := by
  unfold wind_risk_of
  split_ifs <;> simp_all [not_le] <;> linarith

theorem wind_risk_moderate_iff (mw : ℚ) :
    wind_risk_of mw = "moderate" ↔ 15 ≤ mw ∧ mw < 30 := by
  unfold wind_risk_of
  split_ifs <;> simp_all [not_le] <;> intros <;> linarith

theorem wind_risk_low_iff (mw : ℚ) : wind_risk_of mw = "low" ↔ mw < 15 := by
  unfold wind_risk_of
  split_ifs <;> simp_all [not_le] <;> linarith

theorem uv_risk_high_iff (mu : ℚ) : uv_risk_of mu = "high" ↔ 8 ≤ mu := by
  unfold uv_risk_of
  split_ifs <;> simp_all [not_lt] <;> linarith

theorem uv_risk_moderate_iff (mu : ℚ) :
    uv_risk_of mu = "moderate" ↔ 6 ≤ mu ∧ mu < 8 := by
  unfold uv_risk_of
  split_ifs <;> simp_all [not_lt] <;> intros <;> linarith

theorem uv_risk_low_iff (mu : ℚ) : uv_risk_of mu = "low" ↔ mu < 6 := by
  unfold uv_risk_of
  split_ifs <;> simp_all [not_lt] <;> linarith

theorem temp_risk_cases (a cmin cmax : ℚ) :
    (temp_risk_of (some a) cmin cmax = "high" ↔ a < cmin - 2 ∨ cmax + 2 < a) ∧
    (temp_risk_of (some a) cmin cmax = "moderate" ↔
      ¬(a < cmin - 2 ∨ cmax + 2 < a) ∧ (a < cmin ∨ cmax < a)) ∧
    (temp_risk_of (some a) cmin cmax = "low" ↔ cmin ≤ a ∧ a ≤ cmax) := by
  have hred : temp_risk_of (some a) cmin cmax =
      if a < cmin - 2 ∨ a > cmax + 2 then "high"
      else if a < cmin ∨ a > cmax then "moderate" else "low" := rfl
  rw [hred]
  split_ifs with h1 h2
  · refine ⟨iff_of_true rfl h1, iff_of_false (by decide) ?_, iff_of_false (by decide) ?_⟩
    · intro hc
      exact hc.1 h1
    · intro hc
      rcases h1 with h | h <;> linarith [hc.1, hc.2]
  · refine ⟨iff_of_false (by decide) h1, iff_of_true rfl ⟨h1, h2⟩, iff_of_false (by decide) ?_⟩
    intro hc
    rcases h2 with h | h <;> linarith [hc.1, hc.2]
  · push_neg at h2
    refine ⟨iff_of_false (by decide) h1, iff_of_false (by decide) ?_, iff_of_true rfl ⟨h2.1, h2.2⟩⟩
    intro hc
    rcases hc.2 with h | h <;> linarith [h2.1, h2.2]

theorem mkAdviceBody_risks (w : List WindowEntry) (u et : String) :
    (mkAdviceBody w u et).risks =
      { precip := precip_risk_of (max_pop w) (max_precip w)
        wind := wind_risk_of (max_wind w)
        temperature := temp_risk_of (avg_temp_c w) (comfort_range et).1 (comfort_range et).2
        uv := uv_risk_of (max_uvi w) } := rfl

/-- Claim C5: on a non-empty window the per-factor risk bands follow the
fixed thresholds (PoP/precip for precipitation, 30/15 mph for wind, 8/6 for
UV, and the event-type comfort band with a 2-degree tolerance for
temperature). -/
theorem event_risk_bands (w : List WindowEntry) (u et : String) (hw : w ≠ []) :
    ((mkAdviceBody w u et).risks.precip = "high" ↔
      (∃ p, max_pop w = some p ∧ 60 ≤ p) ∨ 2 ≤ max_precip w) ∧
    ((mkAdviceBody w u et).risks.precip = "moderate" ↔
      ¬((∃ p, max_pop w = some p ∧ 60 ≤ p) ∨ 2 ≤ max_precip w) ∧
      ((∃ p, max_pop w = some p ∧ 30 ≤ p ∧ p < 60) ∨
        ((0.2 : ℚ) ≤ max_precip w ∧ max_precip w < 2))) ∧
    ((mkAdviceBody w u et).risks.precip = "low" ↔
      ¬((∃ p, max_pop w = some p ∧ 60 ≤ p) ∨ 2 ≤ max_precip w) ∧
      ¬((∃ p, max_pop w = some p ∧ 30 ≤ p ∧ p < 60) ∨
        ((0.2 : ℚ) ≤ max_precip w ∧ max_precip w < 2))) ∧
    ((mkAdviceBody w u et).risks.wind = "high" ↔ 30 ≤ max_wind w) ∧
    ((mkAdviceBody w u et).risks.wind = "moderate" ↔ 15 ≤ max_wind w ∧ max_wind w < 30) ∧
    ((mkAdviceBody w u et).risks.wind = "low" ↔ max_wind w < 15) ∧
    ((mkAdviceBody w u et).risks.uv = "high" ↔ 8 ≤ max_uvi w) ∧
    ((mkAdviceBody w u et).risks.uv = "moderate" ↔ 6 ≤ max_uvi w ∧ max_uvi w < 8) ∧
    ((mkAdviceBody w u et).risks.uv = "low" ↔ max_uvi w < 6) ∧
    (pyLower et ∈ ["wedding", "outdoor gathering", "concert", "festival", "parade", "picnic"] →
      comfort_range et = (12, 30)) ∧
    (pyLower et ∉ ["wedding", "outdoor gathering", "concert", "festival", "parade", "picnic"] →
      pyLower et ∈ ["sports event", "hiking trip"] → comfort_range et = (8, 32)) ∧
    (pyLower et ∉ ["wedding", "outdoor gathering", "concert", "festival", "parade", "picnic"] →
      pyLower et ∉ ["sports event", "hiking trip"] → comfort_range et = (10, 30)) ∧
    (∀ a : ℚ, avg_temp_c w = some a →
      (((mkAdviceBody w u et).risks.temperature = "high" ↔
         a < (comfort_range et).1 - 2 ∨ (comfort_range et).2 + 2 < a) ∧
       ((mkAdviceBody w u et).risks.temperature = "moderate" ↔
         ¬(a < (comfort_range et).1 - 2 ∨ (comfort_range et).2 + 2 < a) ∧
         (a < (comfort_range et).1 ∨ (comfort_range et).2 < a)) ∧
       ((mkAdviceBody w u et).risks.temperature = "low" ↔
         (comfort_range et).1 ≤ a ∧ a ≤ (comfort_range et).2))) := by
  rw [mkAdviceBody_risks]
  refine ⟨precip_risk_high_iff _ _, precip_risk_moderate_iff _ _, precip_risk_low_iff _ _,
    wind_risk_high_iff _, wind_risk_moderate_iff _, wind_risk_low_iff _,
    uv_risk_high_iff _, uv_risk_moderate_iff _, uv_risk_low_iff _, ?_, ?_, ?_, ?_⟩
  · intro hmem
    unfold comfort_range
    rw [if_pos hmem]
  · intro hn hmem
    unfold comfort_range
    rw [if_neg hn, if_pos hmem]
  · intro hn1 hn2
    unfold comfort_range
    rw [if_neg hn1, if_neg hn2]
  · intro a ha
    rw [ha]
    exact temp_risk_cases a (comfort_range et).1 (comfort_range et).2

/-- Witness for C5 at a one-sample window: PoP 70 makes the precipitation
risk high and wind 5 keeps the wind risk low. -/
theorem event_risk_bands_witness :
    (([⟨"t", some 20, 0, some 70, 5, none, none⟩] : List WindowEntry) ≠ []) ∧
    ((mkAdviceBody [⟨"t", some 20, 0, some 70, 5, none, none⟩] ("fahrenheit") ("wedding")).risks.wind
        = "low" ↔
      max_wind [⟨"t", some 20, 0, some 70, 5, none, none⟩] < 15) :=
  ⟨by simp,
   (event_risk_bands [⟨"t", some 20, 0, some 70, 5, none, none⟩] ("fahrenheit") ("wedding")
     (by simp)).2.2.2.2.2.1⟩

/-- Claim C6: the favorability verdict is exactly low precipitation risk,
low wind risk and non-high temperature risk, independent of the UV risk;
and the concrete window with PoP 70, precipitation 0, wind 5 mph, average
temperature 20 C for a wedding scores precip high, wind low, temperature
low and is not favorable. -/
theorem favorable_spec :
    (∀ (w : List WindowEntry) (u et : String), w ≠ [] →
      ((mkAdviceBody w u et).favorable = true ↔
        (mkAdviceBody w u et).risks.precip = "low" ∧
        (mkAdviceBody w u et).risks.wind = "low" ∧
        (mkAdviceBody w u et).risks.temperature ≠ "high")) ∧
    ((mkAdviceBody [⟨"2025-06-01T12:00", some 20, 0, some 70, 5, none, none⟩]
        ("fahrenheit") ("wedding")).risks.precip = "high" ∧
     (mkAdviceBody [⟨"2025-06-01T12:00", some 20, 0, some 70, 5, none, none⟩]
        ("fahrenheit") ("wedding")).risks.wind = "low" ∧
     (mkAdviceBody [⟨"2025-06-01T12:00", some 20, 0, some 70, 5, none, none⟩]
        ("fahrenheit") ("wedding")).risks.temperature = "low" ∧
     (mkAdviceBody [⟨"2025-06-01T12:00", some 20, 0, some 70, 5, none, none⟩]
        ("fahrenheit") ("wedding")).favorable = false) := by
  constructor
  · intro w u et hw
    simp [mkAdviceBody, favorable_of, Bool.and_eq_true, decide_eq_true_eq, and_assoc]
  · have hcr : comfort_range ("wedding") = (12, 30) := by decide
    have hprecip : precip_risk_of (some 70) 0 = "high" := by
      norm_num [precip_risk_of, popHigh]
    have hwind : wind_risk_of 5 = "low" := by norm_num [wind_risk_of]
    have htemp : temp_risk_of (some 20) 12 30 = "low" := by norm_num [temp_risk_of]
    have hmp : max_pop [⟨"2025-06-01T12:00", some 20, 0, some 70, 5, none, none⟩] = some 70 := by
      simp [max_pop, List.max?]
    have hmpr : max_precip [⟨"2025-06-01T12:00", some 20, 0, some 70, 5, none, none⟩] = 0 := by
      simp [max_precip, List.max?]
    have hmw : max_wind [⟨"2025-06-01T12:00", some 20, 0, some 70, 5, none, none⟩] = 5 := by
      simp [max_wind, List.max?]
    have havg : avg_temp_c [⟨"2025-06-01T12:00", some 20, 0, some 70, 5, none, none⟩]
        = some 20 := by
      norm_num [avg_temp_c, List.filterMap_cons, List.filterMap_nil]
    refine ⟨?_, ?_, ?_, ?_⟩ <;>
      simp [mkAdviceBody, hmp, hmpr, hmw, havg, hcr, hprecip, hwind, htemp, favorable_of]

/-- Witness for C6 at the concrete wedding window, discharging the
non-emptiness hypothesis of the general favorability equation. -/
theorem favorable_spec_witness :
    ((mkAdviceBody [⟨"2025-06-01T12:00", some 20, 0, some 70, 5, none, none⟩]
        ("fahrenheit") ("wedding")).favorable = true ↔
      (mkAdviceBody [⟨"2025-06-01T12:00", some 20, 0, some 70, 5, none, none⟩]
        ("fahrenheit") ("wedding")).risks.precip = "low" ∧
      (mkAdviceBody [⟨"2025-06-01T12:00", some 20, 0, some 70, 5, none, none⟩]
        ("fahrenheit") ("wedding")).risks.wind = "low" ∧
      (mkAdviceBody [⟨"2025-06-01T12:00", some 20, 0, some 70, 5, none, none⟩]
        ("fahrenheit") ("wedding")).risks.temperature ≠ "high") :=
  favorable_spec.1 [⟨"2025-06-01T12:00", some 20, 0, some 70, 5, none, none⟩]
    ("fahrenheit") ("wedding") (by simp)

/-- Claim C7: when no forecast timestamp falls inside the inclusive window
the computation returns the distinguished no-data result with status 200,
and status 500 arises only from a transport or parse failure of the fetch. -/
theorem empty_window_not_error :
    (∀ (h : ForecastHourly) (s e u et : String),
      (∀ t ∈ h.time, ¬(s ≤ t ∧ t ≤ e)) →
      get_event_advice (Except.ok h) s e u et = (AdviceResp.noData, 200)) ∧
    (∀ (fetch : Except Unit ForecastHourly) (s e u et : String),
      (get_event_advice fetch s e u et).2 = 500 → fetch = Except.error ()) := by
  constructor
  · intro h s e u et hno
    have hb : buildWindow h s e = [] := by
      unfold buildWindow
      rw [List.filterMap_eq_nil]
      intro p hp
      obtain ⟨i, t⟩ := p
      have hmem := List.mem_enum hp
      have ht : t ∈ h.time := by
        rw [hmem.2]
        exact List.getElem_mem _
      rw [if_neg]
      simpa [in_window, Bool.and_eq_true, decide_eq_true_eq] using hno t ht
    simp [get_event_advice, hb]
  · intro fetch s e u et h5
    cases fetch with
    | error err => cases err; rfl
    | ok hh =>
      exfalso
      by_cases hb : (buildWindow hh s e).isEmpty <;> simp [get_event_advice, hb] at h5

/-- Witness for C7: a fetch whose time array is empty yields the no-data
result with status 200, and a failed fetch is the only source of 500. -/
theorem empty_window_not_error_witness :
    get_event_advice (Except.ok ⟨[], [], [], [], [], [], []⟩)
        ("2025-01-01T00:00") ("2025-01-01T06:00") ("fahrenheit") ("General") =
      (AdviceResp.noData, 200) ∧
    (Except.error () : Except Unit ForecastHourly) = Except.error () :=
  ⟨empty_window_not_error.1 ⟨[], [], [], [], [], [], []⟩ _ _ _ _ (by simp),
   empty_window_not_error.2 (Except.error ()) ("a") ("b") ("c") ("d") rfl⟩

/-! ## Hourly builder get_power_hourly (src/app.py lines 101-183) -/

def isLeapYear (y : ℕ) : Bool :=
  y % 4 == 0 && (y % 100 != 0 || y % 400 == 0)

def daysInMonth (y m : ℕ) : ℕ :=
  if m = 2 then (if isLeapYear y then 29 else 28)
  else if m = 4 ∨ m = 6 ∨ m = 9 ∨ m = 11 then 30 else 31

def digitsToNat (cs : List Char) : ℕ :=
  cs.foldl (fun acc c => acc * 10 + (c.toNat - 48)) 0

/-- strptime(key, YYYYMMDDHH): ten digits forming a valid date and hour. -/
def parseKeyYmdh (key : String) : Option (ℕ × ℕ × ℕ × ℕ) :=
  if key.data.length = 10 ∧ key.data.all Char.isDigit then
    let y := digitsToNat (key.data.take 4)
    let m := digitsToNat ((key.data.drop 4).take 2)
    let d := digitsToNat ((key.data.drop 6).take 2)
    let h := digitsToNat ((key.data.drop 8).take 2)
    if 1 ≤ m ∧ m ≤ 12 ∧ 1 ≤ d ∧ d ≤ daysInMonth y m ∧ h ≤ 23 then some (y, m, d, h)
    else none
  else none

/-- strftime I-p of an hour with the leading zero stripped. -/
def hourLabel (h : ℕ) : String :=
  toString ((h + 11) % 12 + 1) ++ (if h < 12 then " AM" else " PM")

/-- The time label: a 12-hour clock label when the key parses as a
date-hour, the last two characters of the key otherwise. -/
def timeLabel (key : String) : String :=
  match parseKeyYmdh key with
  | some ymdh => hourLabel ymdh.2.2.2
  | none => String.mk (key.data.drop (key.data.length - 2))

/-- One normalized, unit-converted hourly record. -/
structure HourRow where
  time : String
  temp : ℤ
  icon : String
  precipitation : ℚ
  humidity : ℚ
  wind : ℤ
  feelsLike : ℤ
  description : String
  pressure : Option ℚ
  uvIndex : ℤ
  dewPoint : ℤ
deriving DecidableEq

/-- series.get(key): None when the key is absent or holds a non-scalar. -/
def sget (s : List (String × PVal)) (key : String) : Option ℚ :=
  match s.lookup key with
  | some (PVal.scalar q) => q
  | some (PVal.arr _) => none
  | none => none

/-- One flattened series: p.get(k, empty) put through the flattener. -/
def series_for (p : List (String × List (String × PVal))) (k : String) :
    List (String × PVal) :=
  _flatten_hourly_series ((p.lookup k).getD [])

def insortKey (x : String) : List String → List String
  | [] => [x]
  | y :: ys => if decide (x ≤ y) then x :: y :: ys else y :: insortKey x ys

/-- Ascending sort of the key set (sorted over a set union). -/
def sortKeys : List String → List String
  | [] => []
  | x :: xs => insortKey x (sortKeys xs)

/-- rows[-hours:] (Python slicing: -0 is the whole list). -/
def pyTail (rows : List HourRow) (hours : ℕ) : List HourRow :=
  if hours = 0 then rows else rows.drop (rows.length - hours)

/-- rows[-1].time = Now on a non-empty list. -/
def relabelLastNow (rows : List HourRow) : List HourRow :=
  match rows.getLast? with
  | none => rows
  | some r => rows.dropLast ++ [{ r with time := "Now" }]

/-- get_power_hourly after the fetch: flatten each parameter series, walk
the sorted union of temperature and precipitation keys, skip hours with a
missing temperature, normalize and unit-convert each row, keep the last
requested hours and relabel the final row Now. -/
def get_power_hourly (p : List (String × List (String × PVal))) (hours : ℕ) : List HourRow :=
  let t2mS := series_for p ("T2M")
  let rhS := series_for p ("RH2M")
  let wsS := series_for p ("WS2M")
  let psS := series_for p ("PS")
  let prS := series_for p ("PRECTOTCORR")
  let uvS := series_for p ("ALLSKY_SFC_UV_INDEX")
  let dewS := series_for p ("T2MDEW")
  let keys := sortKeys (((t2mS.map Prod.fst) ++ (prS.map Prod.fst)).dedup)
  let rows := keys.filterMap (fun key =>
    if isMissing (sget t2mS key) then none
    else
      let temp_c := mv (sget t2mS key) 20
      let rh := max 0 (min 100 (mv (sget rhS key) 60))
      let ws_ms := max 0 (mv (sget wsS key) 0)
      let precip_mmhr := max 0 (mv (sget prS key) 0)
      let uvi := max 0 (mv (sget uvS key) 0)
      let dew_c := mv (sget dewS key) (temp_c - 2)
      let cond := get_weather_condition temp_c rh precip_mmhr true
      some { time := timeLabel key
             temp := display_temp_f temp_c
             icon := cond.2
             precipitation := pyRound2 precip_mmhr
             humidity := rh
             wind := pyRound (ws_ms * 2.237)
             feelsLike := display_temp_f temp_c
             description := cond.1
             pressure := if isMissing (sget psS key) then none
                         else some (pyRound2 (mv (sget psS key) 0 * 0.2953))
             uvIndex := pyRound uvi
             dewPoint := display_temp_f dew_c })
  relabelLastNow (pyTail rows hours)

theorem relabelLastNow_time (rows : List HourRow) (r : HourRow)
    (h : (relabelLastNow rows).getLast? = some r) : r.time = "Now" := by
  cases hl : rows.getLast? with
  | none =>
    have hrel : relabelLastNow rows = rows := by
      unfold relabelLastNow
      rw [hl]
    rw [hrel, hl] at h
    exact Option.noConfusion h
  | some x =>
    have hrel : relabelLastNow rows = rows.dropLast ++ [{ x with time := "Now" }] := by
      unfold relabelLastNow
      rw [hl]
    rw [hrel, List.getLast?_concat] at h
    injection h with h2
    rw [← h2]

/-- Claim C8: whenever the builder returns a non-empty record list, the
chronologically last record carries the time label Now, regardless of the
label derived from its original time key. -/
theorem power_hourly_last_is_now (p : List (String × List (String × PVal)))
    (hours : ℕ) (r : HourRow)
    (h : (get_power_hourly p hours).getLast? = some r) : r.time = "Now" :=
  relabelLastNow_time _ r h

/-- Witness for C8 on a one-hour synthetic series: the single returned
record is relabeled Now. -/
theorem power_hourly_last_is_now_witness :
    (get_power_hourly [("T2M", [("2024010100", PVal.scalar (some 20))])] 24).getLast? =
      some ⟨"Now", 68, "☀️", 0, 60, 0, 68, "Clear", none, 0, 64⟩ ∧
    (⟨"Now", 68, "☀️", 0, 60, 0, 68, "Clear", none, 0, 64⟩ : HourRow).time = "Now" := by
  have h1 : series_for [("T2M", [("2024010100", PVal.scalar (some 20))])] ("T2M") =
      [("2024010100", PVal.scalar (some 20))] := rfl
  have h2 : series_for [("T2M", [("2024010100", PVal.scalar (some 20))])] ("RH2M") = [] := rfl
  have h3 : series_for [("T2M", [("2024010100", PVal.scalar (some 20))])] ("WS2M") = [] := rfl
  have h4 : series_for [("T2M", [("2024010100", PVal.scalar (some 20))])] ("PS") = [] := rfl
  have h5 : series_for [("T2M", [("2024010100", PVal.scalar (some 20))])] ("PRECTOTCORR") = [] :=
    rfl
  have h6 : series_for [("T2M", [("2024010100", PVal.scalar (some 20))])]
      ("ALLSKY_SFC_UV_INDEX") = [] := rfl
  have h7 : series_for [("T2M", [("2024010100", PVal.scalar (some 20))])] ("T2MDEW") = [] := rfl
  have hkeys : sortKeys
      ((([("2024010100", PVal.scalar (some 20))].map Prod.fst) ++
        (([] : List (String × PVal)).map Prod.fst)).dedup) = ["2024010100"] := rfl
  have hsget : sget [("2024010100", PVal.scalar (some 20))] ("2024010100") = some 20 := rfl
  have hsnone : sget ([] : List (String × PVal)) ("2024010100") = none := rfl
  have hmiss : isMissing (some 20) = false := by decide
  have hmissnone : isMissing (none : Option ℚ) = true := rfl
  have heval : (get_power_hourly [("T2M", [("2024010100", PVal.scalar (some 20))])] 24).getLast? =
      some ⟨"Now", 68, "☀️", 0, 60, 0, 68, "Clear", none, 0, 64⟩ := by
    simp only [get_power_hourly, h1, h2, h3, h4, h5, h6, h7, hkeys, hsget, hsnone, hmiss,
      hmissnone, List.filterMap_cons, List.filterMap_nil, Bool.false_eq_true, if_false, if_true,
      Bool.true_eq_false]
    norm_num [mv, hmiss, hmissnone, isMissing, MISSING_NUM, pyTail, relabelLastNow,
      get_weather_condition, display_temp_f, pyRound, pyRound2]
  exact ⟨heval, power_hourly_last_is_now [("T2M", [("2024010100", PVal.scalar (some 20))])]
    24 ⟨"Now", 68, "☀️", 0, 60, 0, 68, "Clear", none, 0, 64⟩ heval⟩

end WeatherApp
